import Mathlib

/-!
# Verification of the rs-fusion FUSE session core

Shallow embedding of the rs-fusion sources (`src/messages/request.rs`,
`src/messages/reply.rs`, `src/messages/argument.rs`, `src/messages/fuse_abi.rs`,
`src/session.rs`) in Lean 4.

Modelling conventions:
* Byte buffers are `List Nat`, one entry per byte (entries < 256 on real inputs);
  all multi-byte integers are little-endian, matching the Linux targets the crate
  builds for (the crate uses host-native layout via `zerocopy`, and its own test
  vectors are little-endian).
* The build is modelled at ABI feature level 7.31 with every `abi-7-N` feature for
  N ≤ 31 enabled and no `target_os = "macos"` / `macfuse-4-compat` items: this is
  the highest level the crate's `FUSE_KERNEL_MINOR_VERSION` cfg-chain supports and
  the level at which opcodes 39–49 (IOCTL … REMOVEMAPPING) exist.
* `zerocopy` prefix casts of a `repr(C)` record are modelled as taking the record's
  byte span: a cast succeeds exactly when enough bytes remain (pointer alignment,
  which always holds for the session's heap buffer, is not modelled). The record
  value is its byte span; field accessors read little-endian words at the field's
  offset in the record.
* Rust panics (`unwrap`, `expect`, out-of-range slice indexing, `todo!()`) are an
  explicit outcome (`ParseErr.panic`, `ReadOutcome.panic`) rather than undefined
  behaviour, so panic-freedom claims are statable.
* Strings parsed from name trailers are kept as their raw byte spans; the crate's
  lossy UTF-8 decoding (`String::from_utf8_lossy`) only affects the textual value,
  which no verified property inspects.
* Tokio channel endpoints (`ReplyTx`) carry no observable state; channel send
  failure and receiver state appear as explicit booleans where the session code
  branches on them. `error.rs` is not part of the provided sources, so `Errno` is
  modelled from the spec (§4.7): an enum of POSIX errno names; the verified
  properties only distinguish `EIO` from the rest.
-/

namespace RsFusion

/-- Little-endian value of the first `n` entries of a byte list (missing bytes
read as zero, matching a read that can never run past a checked span). -/
def leNum : Nat → List Nat → Nat
  | 0, _ => 0
  | _ + 1, [] => 0
  | n + 1, b :: bs => b + 256 * leNum n bs

/-- Little-endian read of `n` bytes at offset `off`. -/
def readLE (bs : List Nat) (off n : Nat) : Nat :=
  leNum n (bs.drop off)

/-- Serialize a `u32` little-endian. -/
def u32le (v : Nat) : List Nat :=
  [v % 256, v / 256 % 256, v / 256 ^ 2 % 256, v / 256 ^ 3 % 256]

/-- Serialize a `u16` little-endian. -/
def u16le (v : Nat) : List Nat :=
  [v % 256, v / 256 % 256]

/-- Serialize a `u64` little-endian. -/
def u64le (v : Nat) : List Nat :=
  [v % 256, v / 256 % 256, v / 256 ^ 2 % 256, v / 256 ^ 3 % 256,
   v / 256 ^ 4 % 256, v / 256 ^ 5 % 256, v / 256 ^ 6 % 256, v / 256 ^ 7 % 256]

/-- Serialize an `i32` little-endian (two's complement). -/
def i32le (v : Int) : List Nat :=
  u32le (v.emod (2 ^ 32)).toNat

/-- Serialize an `i64` little-endian (two's complement). -/
def i64le (v : Int) : List Nat :=
  u64le (v.emod (2 ^ 64)).toNat

/-- Modelled from the spec (§4.7): `error.rs` is outside the provided sources.
A single errno enum mirroring the POSIX names the session code uses; the claims
only distinguish `EIO` from other values, so the enum is kept to the names that
appear in the sources. -/
inductive Errno
  | eio
  | enoent
  | eintr
  | eagain
  | enodev
  | einval
  | eacces
  deriving DecidableEq, Repr

/-- Outcome of a failed parse: `Request::parse` either returns `Err(Errno::EIO)`
(header cast failure, unknown opcode) or panics inside an opcode arm
(`unwrap` / `expect` / slice indexing); the source marks the latter with
`// TODO error handling - these will panic`. -/
inductive ParseErr
  | eio
  | panic
  deriving DecidableEq, Repr

/-- `ReplyTx = tokio::sync::mpsc::Sender<Reply>` (lib.rs): an opaque capability
with no state observable by the parser. -/
structure ReplyTx where
  deriving DecidableEq, Repr

/-- `fuse_in_header` (fuse_abi.rs lines 923-934): len, opcode, unique, nodeid,
uid, gid, pid, padding — 40 bytes. -/
structure fuse_in_header where
  len : Nat
  opcode : Nat
  unique : Nat
  nodeid : Nat
  uid : Nat
  gid : Nat
  pid : Nat
  padding : Nat
  deriving DecidableEq, Repr

/-- Byte size of `fuse_in_header`. -/
def fuse_in_header.byteSize : Nat := 40

/-- `fuse_in_header::mut_from_prefix(buffer)` (request.rs line 40): cast the 40-byte
prefix, returning the decoded header and the remaining bytes, or `none` when the
buffer is shorter than the header. -/
def fuse_in_header.castFrom (buffer : List Nat) : Option (fuse_in_header × List Nat) :=
  if buffer.length < fuse_in_header.byteSize then none
  else
    some
      ({ len := readLE buffer 0 4
         opcode := readLE buffer 4 4
         unique := readLE buffer 8 8
         nodeid := readLE buffer 16 8
         uid := readLE buffer 24 4
         gid := readLE buffer 28 4
         pid := readLE buffer 32 4
         padding := readLE buffer 36 4 },
       buffer.drop fuse_in_header.byteSize)

/-- `T::ref_from_prefix` / `T::mut_from_prefix` for a fixed-size `repr(C)` record
of `sz` bytes: the record value is its byte span; fails when fewer than `sz`
bytes remain. -/
def castFixed (sz : Nat) (buffer : List Nat) : Option (List Nat × List Nat) :=
  if buffer.length < sz then none else some (buffer.take sz, buffer.drop sz)

/-- `memchr::memchr(0, buffer)` (argument.rs line 5). -/
def memchr0 : List Nat → Option Nat
  | [] => none
  | b :: bs => if b = 0 then some 0 else (memchr0 bs).map (· + 1)

/-- `get_string` (argument.rs lines 4-9): split at the first NUL; the name is kept
as its raw byte span (the source decodes it lossy-UTF-8, which no claim
inspects). `none` models the `expect("NUL terminated string")` panic when the
buffer holds no NUL. -/
def get_string (buffer : List Nat) : Option (List Nat × List Nat) :=
  match memchr0 buffer with
  | none => none
  | some len => some (buffer.take len, (buffer.drop len).drop 1)

/-- `get_vec::<T>(buffer, count)` (argument.rs lines 14-17) for an element type of
`elemSize` bytes: `ref_from_prefix_with_elems(buffer, count).unwrap()` panics
(`none`) when fewer than `elemSize * count` bytes remain; otherwise the copied
elements are their byte span. -/
def get_vec (elemSize count : Nat) (buffer : List Nat) : Option (List Nat) :=
  if buffer.length < elemSize * count then none
  else some (buffer.take (elemSize * count))

/-- `fuse_opcode` (fuse_abi.rs lines 168-242) at feature level 7.31 on Linux. -/
inductive fuse_opcode
  | FUSE_LOOKUP
  | FUSE_FORGET
  | FUSE_GETATTR
  | FUSE_SETATTR
  | FUSE_READLINK
  | FUSE_SYMLINK
  | FUSE_MKNOD
  | FUSE_MKDIR
  | FUSE_UNLINK
  | FUSE_RMDIR
  | FUSE_RENAME
  | FUSE_LINK
  | FUSE_OPEN
  | FUSE_READ
  | FUSE_WRITE
  | FUSE_STATFS
  | FUSE_RELEASE
  | FUSE_FSYNC
  | FUSE_SETXATTR
  | FUSE_GETXATTR
  | FUSE_LISTXATTR
  | FUSE_REMOVEXATTR
  | FUSE_FLUSH
  | FUSE_INIT
  | FUSE_OPENDIR
  | FUSE_READDIR
  | FUSE_RELEASEDIR
  | FUSE_FSYNCDIR
  | FUSE_GETLK
  | FUSE_SETLK
  | FUSE_SETLKW
  | FUSE_ACCESS
  | FUSE_CREATE
  | FUSE_INTERRUPT
  | FUSE_BMAP
  | FUSE_DESTROY
  | FUSE_IOCTL
  | FUSE_POLL
  | FUSE_NOTIFY_REPLY
  | FUSE_BATCH_FORGET
  | FUSE_FALLOCATE
  | FUSE_READDIRPLUS
  | FUSE_RENAME2
  | FUSE_LSEEK
  | FUSE_COPY_FILE_RANGE
  | FUSE_SETUPMAPPING
  | FUSE_REMOVEMAPPING
  | CUSE_INIT
  deriving DecidableEq, Repr

/-- `impl TryFrom<u32> for fuse_opcode` (fuse_abi.rs lines 244-326);
`none` is `Err(InvalidOpcodeError)`. -/
def fuse_opcode.try_from (n : Nat) : Option fuse_opcode :=
  match n with
  | 1 => some .FUSE_LOOKUP
  | 2 => some .FUSE_FORGET
  | 3 => some .FUSE_GETATTR
  | 4 => some .FUSE_SETATTR
  | 5 => some .FUSE_READLINK
  | 6 => some .FUSE_SYMLINK
  | 8 => some .FUSE_MKNOD
  | 9 => some .FUSE_MKDIR
  | 10 => some .FUSE_UNLINK
  | 11 => some .FUSE_RMDIR
  | 12 => some .FUSE_RENAME
  | 13 => some .FUSE_LINK
  | 14 => some .FUSE_OPEN
  | 15 => some .FUSE_READ
  | 16 => some .FUSE_WRITE
  | 17 => some .FUSE_STATFS
  | 18 => some .FUSE_RELEASE
  | 20 => some .FUSE_FSYNC
  | 21 => some .FUSE_SETXATTR
  | 22 => some .FUSE_GETXATTR
  | 23 => some .FUSE_LISTXATTR
  | 24 => some .FUSE_REMOVEXATTR
  | 25 => some .FUSE_FLUSH
  | 26 => some .FUSE_INIT
  | 27 => some .FUSE_OPENDIR
  | 28 => some .FUSE_READDIR
  | 29 => some .FUSE_RELEASEDIR
  | 30 => some .FUSE_FSYNCDIR
  | 31 => some .FUSE_GETLK
  | 32 => some .FUSE_SETLK
  | 33 => some .FUSE_SETLKW
  | 34 => some .FUSE_ACCESS
  | 35 => some .FUSE_CREATE
  | 36 => some .FUSE_INTERRUPT
  | 37 => some .FUSE_BMAP
  | 38 => some .FUSE_DESTROY
  | 39 => some .FUSE_IOCTL
  | 40 => some .FUSE_POLL
  | 41 => some .FUSE_NOTIFY_REPLY
  | 42 => some .FUSE_BATCH_FORGET
  | 43 => some .FUSE_FALLOCATE
  | 44 => some .FUSE_READDIRPLUS
  | 45 => some .FUSE_RENAME2
  | 46 => some .FUSE_LSEEK
  | 47 => some .FUSE_COPY_FILE_RANGE
  | 48 => some .FUSE_SETUPMAPPING
  | 49 => some .FUSE_REMOVEMAPPING
  | 4096 => some .CUSE_INIT
  | _ => none

/- Byte sizes of the fixed `*_in` argument records (fuse_abi.rs), at feature
level 7.31 on Linux (so every `abi-7-N` field with N ≤ 31 is present and no
macOS field is). -/

def fuse_forget_in.byteSize : Nat := 8
def fuse_getattr_in.byteSize : Nat := 16
def fuse_setattr_in.byteSize : Nat := 88
def fuse_mknod_in.byteSize : Nat := 16
def fuse_mkdir_in.byteSize : Nat := 8
def fuse_rename_in.byteSize : Nat := 8
def fuse_rename2_in.byteSize : Nat := 16
def fuse_link_in.byteSize : Nat := 8
def fuse_open_in.byteSize : Nat := 8
def fuse_read_in.byteSize : Nat := 40
def fuse_write_in.byteSize : Nat := 40
def fuse_release_in.byteSize : Nat := 24
def fuse_fsync_in.byteSize : Nat := 16
def fuse_setxattr_in.byteSize : Nat := 8
def fuse_getxattr_in.byteSize : Nat := 8
def fuse_lk_in.byteSize : Nat := 48
def fuse_access_in.byteSize : Nat := 8
def fuse_init_in.byteSize : Nat := 16
def fuse_interrupt_in.byteSize : Nat := 8
def fuse_bmap_in.byteSize : Nat := 16
def fuse_flush_in.byteSize : Nat := 24
def fuse_create_in.byteSize : Nat := 16
def fuse_ioctl_in.byteSize : Nat := 32
def fuse_poll_in.byteSize : Nat := 24
def fuse_batch_forget_in.byteSize : Nat := 8
def fuse_forget_one.byteSize : Nat := 16
def fuse_fallocate_in.byteSize : Nat := 32
def fuse_lseek_in.byteSize : Nat := 24
def fuse_copy_file_range_in.byteSize : Nat := 56

/-- `fuse_forget_in.nlookup` (fuse_abi.rs lines 389-393): `u64` at offset 0. -/
def fuse_forget_in.nlookup (arg : List Nat) : Nat := readLE arg 0 8

/-- `fuse_write_in.size` (fuse_abi.rs lines 664-681): `u32` at offset 16
(after `fh: u64`, `offset: i64`). -/
def fuse_write_in.sizeField (arg : List Nat) : Nat := readLE arg 16 4

/-- `fuse_setxattr_in.size` (fuse_abi.rs lines 704-715): `u32` at offset 0. -/
def fuse_setxattr_in.sizeField (arg : List Nat) : Nat := readLE arg 0 4

/-- `fuse_batch_forget_in.count` (fuse_abi.rs lines 403-409): `u32` at offset 0. -/
def fuse_batch_forget_in.countField (arg : List Nat) : Nat := readLE arg 0 4

namespace request

/-- `messages::request::Operation` (request.rs lines 690-770) at feature level
7.31 on Linux. Fixed argument records are carried as their byte spans; name
trailers as their raw byte spans. -/
inductive Operation
  | Lookup (name : List Nat)
  | Forget (arg : List Nat)
  | GetAttr (arg : List Nat)
  | SetAttr (arg : List Nat)
  | ReadLink
  | SymLink (name target : List Nat)
  | MkNod (arg : List Nat) (name : List Nat)
  | MkDir (arg : List Nat) (name : List Nat)
  | Unlink (name : List Nat)
  | RmDir (name : List Nat)
  | Rename (arg : List Nat) (name newname : List Nat)
  | Link (arg : List Nat) (name : List Nat)
  | Open (arg : List Nat)
  | Read (arg : List Nat)
  | Write (arg : List Nat) (data : List Nat)
  | StatFs
  | Release (arg : List Nat)
  | FSync (arg : List Nat)
  | SetXAttr (arg : List Nat) (name : List Nat) (value : List Nat)
  | GetXAttr (arg : List Nat) (name : List Nat)
  | ListXAttr (arg : List Nat)
  | RemoveXAttr (name : List Nat)
  | Flush (arg : List Nat)
  | Init (arg : List Nat)
  | OpenDir (arg : List Nat)
  | ReadDir (arg : List Nat)
  | ReleaseDir (arg : List Nat)
  | FSyncDir (arg : List Nat)
  | GetLk (arg : List Nat)
  | SetLk (arg : List Nat)
  | SetLkW (arg : List Nat)
  | Access (arg : List Nat)
  | Create (arg : List Nat) (name : List Nat)
  | Interrupt (arg : List Nat)
  | BMap (arg : List Nat)
  | Destroy
  | IoCtl (arg : List Nat) (data : List Nat)
  | Poll (arg : List Nat)
  | NotifyReply
  | BatchForget (arg : List Nat) (nodes : List Nat)
  | FAllocate (arg : List Nat)
  | ReadDirPlus (arg : List Nat)
  | Rename2 (arg : List Nat) (name newname : List Nat) (old_parent : Nat)
  | LSeek (arg : List Nat)
  | CopyFileRange (arg : List Nat)
  | SetupMapping
  | RemoveMapping
  | CuseInit (arg : List Nat)
  deriving DecidableEq, Repr

/-- `Operation::get_opcode` (request.rs lines 772-776): the `repr(u32)` enum's
discriminant, read in the source through a pointer cast to `u32`; per the Rust
reference the tag of a `repr(u32)` enum sits at offset 0 and equals the declared
discriminant (request.rs lines 690-770). -/
def Operation.get_opcode : Operation → Nat
  | .Lookup _ => 1
  | .Forget _ => 2
  | .GetAttr _ => 3
  | .SetAttr _ => 4
  | .ReadLink => 5
  | .SymLink _ _ => 6
  | .MkNod _ _ => 8
  | .MkDir _ _ => 9
  | .Unlink _ => 10
  | .RmDir _ => 11
  | .Rename _ _ _ => 12
  | .Link _ _ => 13
  | .Open _ => 14
  | .Read _ => 15
  | .Write _ _ => 16
  | .StatFs => 17
  | .Release _ => 18
  | .FSync _ => 20
  | .SetXAttr _ _ _ => 21
  | .GetXAttr _ _ => 22
  | .ListXAttr _ => 23
  | .RemoveXAttr _ => 24
  | .Flush _ => 25
  | .Init _ => 26
  | .OpenDir _ => 27
  | .ReadDir _ => 28
  | .ReleaseDir _ => 29
  | .FSyncDir _ => 30
  | .GetLk _ => 31
  | .SetLk _ => 32
  | .SetLkW _ => 33
  | .Access _ => 34
  | .Create _ _ => 35
  | .Interrupt _ => 36
  | .BMap _ => 37
  | .Destroy => 38
  | .IoCtl _ _ => 39
  | .Poll _ => 40
  | .NotifyReply => 41
  | .BatchForget _ _ => 42
  | .FAllocate _ => 43
  | .ReadDirPlus _ => 44
  | .Rename2 _ _ _ _ => 45
  | .LSeek _ => 46
  | .CopyFileRange _ => 47
  | .SetupMapping => 48
  | .RemoveMapping => 49
  | .CuseInit _ => 4096

end request

/-- `Request` (request.rs lines 15-19). -/
structure Request where
  header : fuse_in_header
  operation : request.Operation
  reply_to : ReplyTx
  deriving DecidableEq, Repr

/-- `Request::from_op` (request.rs lines 22-37): header zeroed except `opcode`. -/
def Request.from_op (op : request.Operation) (reply_to : ReplyTx) : Request :=
  { header :=
      { uid := 0
        gid := 0
        pid := 0
        len := 0
        nodeid := 0
        unique := 0
        padding := 0
        opcode := op.get_opcode }
    operation := op
    reply_to := reply_to }

/-- Lift an `Option` produced by a fallible cast into the parse monad, mapping
`None` to the `unwrap` panic of the corresponding source line. -/
def orPanic {α : Type} : Option α → Except ParseErr α
  | none => .error .panic
  | some a => .ok a

/-- `Request::parse` (request.rs lines 39-286) at feature level 7.31 on Linux.
Header cast failure and unknown opcodes return `Err(Errno::EIO)`; each opcode
arm's `unwrap` / `expect` / slice indexing maps to `ParseErr.panic` (the source
marks these arms `// TODO error handling - these will panic`). -/
def Request.parse (buffer : List Nat) (reply_to : ReplyTx) : Except ParseErr Request :=
  match fuse_in_header.castFrom buffer with
  | none => .error .eio
  | some (header, rest) =>
    let operationE : Except ParseErr request.Operation :=
      match fuse_opcode.try_from header.opcode with
      | none => .error .eio
      | some opcode =>
        match opcode with
        | .FUSE_LOOKUP => do
          let (name, _rest) ← orPanic (get_string rest)
          .ok (.Lookup name)
        | .FUSE_FORGET => do
          -- source casts from `buffer`, not `rest` (request.rs line 57)
          let (arg, _r) ← orPanic (castFixed fuse_forget_in.byteSize buffer)
          .ok (.Forget arg)
        | .FUSE_GETATTR => do
          let (arg, _r) ← orPanic (castFixed fuse_getattr_in.byteSize rest)
          .ok (.GetAttr arg)
        | .FUSE_SETATTR => do
          let (arg, _r) ← orPanic (castFixed fuse_setattr_in.byteSize rest)
          .ok (.SetAttr arg)
        | .FUSE_READLINK => .ok .ReadLink
        | .FUSE_SYMLINK => do
          let (name, rest1) ← orPanic (get_string rest)
          let (target, _r) ← orPanic (get_string rest1)
          .ok (.SymLink name target)
        | .FUSE_MKNOD => do
          let (arg, rest1) ← orPanic (castFixed fuse_mknod_in.byteSize rest)
          let (name, _r) ← orPanic (get_string rest1)
          .ok (.MkNod arg name)
        | .FUSE_MKDIR => do
          let (arg, rest1) ← orPanic (castFixed fuse_mkdir_in.byteSize rest)
          let (name, _r) ← orPanic (get_string rest1)
          .ok (.MkDir arg name)
        | .FUSE_UNLINK => do
          let (name, _r) ← orPanic (get_string rest)
          .ok (.Unlink name)
        | .FUSE_RMDIR => do
          let (name, _r) ← orPanic (get_string rest)
          .ok (.RmDir name)
        | .FUSE_RENAME => do
          let (arg, rest1) ← orPanic (castFixed fuse_rename_in.byteSize rest)
          let (name, rest2) ← orPanic (get_string rest1)
          let (newname, _r) ← orPanic (get_string rest2)
          .ok (.Rename arg name newname)
        | .FUSE_LINK => do
          let (arg, rest1) ← orPanic (castFixed fuse_link_in.byteSize rest)
          let (name, _r) ← orPanic (get_string rest1)
          .ok (.Link arg name)
        | .FUSE_OPEN => do
          let (arg, _r) ← orPanic (castFixed fuse_open_in.byteSize rest)
          .ok (.Open arg)
        | .FUSE_READ => do
          let (arg, _r) ← orPanic (castFixed fuse_read_in.byteSize rest)
          .ok (.Read arg)
        | .FUSE_WRITE => do
          let (arg, rest2) ← orPanic (castFixed fuse_write_in.byteSize rest)
          -- `rest2[..arg.size as usize]` (request.rs line 117): panics when
          -- the requested span exceeds the remaining bytes
          if fuse_write_in.sizeField arg ≤ rest2.length then
            .ok (.Write arg (rest2.take (fuse_write_in.sizeField arg)))
          else .error .panic
        | .FUSE_STATFS => .ok .StatFs
        | .FUSE_RELEASE => do
          let (arg, _r) ← orPanic (castFixed fuse_release_in.byteSize rest)
          .ok (.Release arg)
        | .FUSE_FSYNC => do
          let (arg, _r) ← orPanic (castFixed fuse_fsync_in.byteSize rest)
          .ok (.FSync arg)
        | .FUSE_SETXATTR => do
          let (arg, rest1) ← orPanic (castFixed fuse_setxattr_in.byteSize rest)
          let (name, rest2) ← orPanic (get_string rest1)
          let value ← orPanic (get_vec 1 (fuse_setxattr_in.sizeField arg) rest2)
          .ok (.SetXAttr arg name value)
        | .FUSE_GETXATTR => do
          let (arg, rest1) ← orPanic (castFixed fuse_getxattr_in.byteSize rest)
          let (name, _r) ← orPanic (get_string rest1)
          .ok (.GetXAttr arg name)
        | .FUSE_LISTXATTR => do
          let (arg, _r) ← orPanic (castFixed fuse_getxattr_in.byteSize rest)
          .ok (.ListXAttr arg)
        | .FUSE_REMOVEXATTR => do
          let (name, _r) ← orPanic (get_string rest)
          .ok (.RemoveXAttr name)
        | .FUSE_FLUSH => do
          let (arg, _r) ← orPanic (castFixed fuse_flush_in.byteSize rest)
          .ok (.Flush arg)
        | .FUSE_INIT => do
          let (arg, _r) ← orPanic (castFixed fuse_init_in.byteSize rest)
          .ok (.Init arg)
        | .FUSE_OPENDIR => do
          let (arg, _r) ← orPanic (castFixed fuse_open_in.byteSize rest)
          .ok (.OpenDir arg)
        | .FUSE_READDIR => do
          let (arg, _r) ← orPanic (castFixed fuse_read_in.byteSize rest)
          .ok (.ReadDir arg)
        | .FUSE_RELEASEDIR => do
          let (arg, _r) ← orPanic (castFixed fuse_release_in.byteSize rest)
          .ok (.ReleaseDir arg)
        | .FUSE_FSYNCDIR => do
          let (arg, _r) ← orPanic (castFixed fuse_fsync_in.byteSize rest)
          .ok (.FSyncDir arg)
        | .FUSE_GETLK => do
          let (arg, _r) ← orPanic (castFixed fuse_lk_in.byteSize rest)
          .ok (.GetLk arg)
        | .FUSE_SETLK => do
          let (arg, _r) ← orPanic (castFixed fuse_lk_in.byteSize rest)
          .ok (.SetLk arg)
        | .FUSE_SETLKW => do
          let (arg, _r) ← orPanic (castFixed fuse_lk_in.byteSize rest)
          .ok (.SetLkW arg)
        | .FUSE_ACCESS => do
          let (arg, _r) ← orPanic (castFixed fuse_access_in.byteSize rest)
          .ok (.Access arg)
        | .FUSE_CREATE => do
          let (arg, rest1) ← orPanic (castFixed fuse_create_in.byteSize rest)
          let (name, _r) ← orPanic (get_string rest1)
          .ok (.Create arg name)
        | .FUSE_INTERRUPT => do
          let (arg, _r) ← orPanic (castFixed fuse_interrupt_in.byteSize rest)
          .ok (.Interrupt arg)
        | .FUSE_BMAP => do
          let (arg, _r) ← orPanic (castFixed fuse_bmap_in.byteSize rest)
          .ok (.BMap arg)
        | .FUSE_DESTROY => .ok .Destroy
        | .FUSE_IOCTL => do
          let (arg, rest1) ← orPanic (castFixed fuse_ioctl_in.byteSize rest)
          .ok (.IoCtl arg rest1)
        | .FUSE_POLL => do
          let (arg, _r) ← orPanic (castFixed fuse_poll_in.byteSize rest)
          .ok (.Poll arg)
        | .FUSE_NOTIFY_REPLY => .ok .NotifyReply
        | .FUSE_BATCH_FORGET => do
          let (arg, rest1) ← orPanic (castFixed fuse_batch_forget_in.byteSize rest)
          let nodes ← orPanic
            (get_vec fuse_forget_one.byteSize (fuse_batch_forget_in.countField arg) rest1)
          .ok (.BatchForget arg nodes)
        | .FUSE_FALLOCATE => do
          let (arg, _r) ← orPanic (castFixed fuse_fallocate_in.byteSize rest)
          .ok (.FAllocate arg)
        | .FUSE_READDIRPLUS => do
          let (arg, _r) ← orPanic (castFixed fuse_read_in.byteSize rest)
          .ok (.ReadDirPlus arg)
        | .FUSE_RENAME2 => do
          let (arg, rest1) ← orPanic (castFixed fuse_rename2_in.byteSize rest)
          let (name, rest2) ← orPanic (get_string rest1)
          let (newname, _r) ← orPanic (get_string rest2)
          .ok (.Rename2 arg name newname header.nodeid)
        | .FUSE_LSEEK => do
          let (arg, _r) ← orPanic (castFixed fuse_lseek_in.byteSize rest)
          .ok (.LSeek arg)
        | .FUSE_COPY_FILE_RANGE => do
          let (arg, _r) ← orPanic (castFixed fuse_copy_file_range_in.byteSize rest)
          .ok (.CopyFileRange arg)
        | .FUSE_SETUPMAPPING => .ok .SetupMapping
        | .FUSE_REMOVEMAPPING => .ok .RemoveMapping
        | .CUSE_INIT => do
          let (arg, _r) ← orPanic (castFixed fuse_init_in.byteSize rest)
          .ok (.CuseInit arg)
    match operationE with
    | .error e => .error e
    | .ok operation => .ok { header := header, operation := operation, reply_to := reply_to }

/-! ## Reply serializer (reply.rs, fuse_abi.rs out-records)

Each reply record is a `repr(C)` struct whose `as_bytes` view is the
little-endian concatenation of its fields; `IWrite::write` copies those bytes
into the output buffer and returns the count. The Lean `write` functions
produce the written byte list; the count is its length. -/

/-- `fuse_attr` (fuse_abi.rs lines 82-126), Linux with `abi-7-9`: 88 bytes. -/
structure fuse_attr where
  ino : Nat
  size : Nat
  blocks : Nat
  atime : Int
  mtime : Int
  ctime : Int
  atimensec : Nat
  mtimensec : Nat
  ctimensec : Nat
  mode : Nat
  nlink : Nat
  uid : Nat
  gid : Nat
  rdev : Nat
  blksize : Nat
  padding : Nat
  deriving DecidableEq, Repr

def fuse_attr.as_bytes (a : fuse_attr) : List Nat :=
  u64le a.ino ++ u64le a.size ++ u64le a.blocks ++
  i64le a.atime ++ i64le a.mtime ++ i64le a.ctime ++
  u32le a.atimensec ++ u32le a.mtimensec ++ u32le a.ctimensec ++
  u32le a.mode ++ u32le a.nlink ++ u32le a.uid ++ u32le a.gid ++
  u32le a.rdev ++ u32le a.blksize ++ u32le a.padding

/-- `fuse_entry_out` (fuse_abi.rs lines 376-387): 128 bytes. -/
structure fuse_entry_out where
  nodeid : Nat
  generation : Nat
  entry_valid : Nat
  attr_valid : Nat
  entry_valid_nsec : Nat
  attr_valid_nsec : Nat
  attr : fuse_attr
  deriving DecidableEq, Repr

def fuse_entry_out.as_bytes (e : fuse_entry_out) : List Nat :=
  u64le e.nodeid ++ u64le e.generation ++ u64le e.entry_valid ++ u64le e.attr_valid ++
  u32le e.entry_valid_nsec ++ u32le e.attr_valid_nsec ++ e.attr.as_bytes

/-- `fuse_attr_out` (fuse_abi.rs lines 420-427): 104 bytes. -/
structure fuse_attr_out where
  attr_valid : Nat
  attr_valid_nsec : Nat
  dummy : Nat
  attr : fuse_attr
  deriving DecidableEq, Repr

def fuse_attr_out.as_bytes (a : fuse_attr_out) : List Nat :=
  u64le a.attr_valid ++ u32le a.attr_valid_nsec ++ u32le a.dummy ++ a.attr.as_bytes

/-- `fuse_open_out` (fuse_abi.rs lines 614-622): 16 bytes. -/
structure fuse_open_out where
  fh : Nat
  open_flags : Nat
  padding : Nat
  deriving DecidableEq, Repr

def fuse_open_out.as_bytes (o : fuse_open_out) : List Nat :=
  u64le o.fh ++ u32le o.open_flags ++ u32le o.padding

/-- `fuse_create_out` (fuse_abi.rs lines 607-612): 144 bytes.
The `open` field is renamed `open_out` (`open` is a Lean keyword). -/
structure fuse_create_out where
  entry : fuse_entry_out
  open_out : fuse_open_out
  deriving DecidableEq, Repr

def fuse_create_out.as_bytes (c : fuse_create_out) : List Nat :=
  c.entry.as_bytes ++ c.open_out.as_bytes

/-- `fuse_write_out` (fuse_abi.rs lines 683-688): 8 bytes. -/
structure fuse_write_out where
  size : Nat
  padding : Nat
  deriving DecidableEq, Repr

def fuse_write_out.as_bytes (w : fuse_write_out) : List Nat :=
  u32le w.size ++ u32le w.padding

/-- `fuse_kstatfs` (fuse_abi.rs lines 128-149): 80 bytes (`spare: [u32; 6]`
expanded to six fields). -/
structure fuse_kstatfs where
  blocks : Nat
  bfree : Nat
  bavail : Nat
  files : Nat
  ffree : Nat
  bsize : Nat
  namelen : Nat
  frsize : Nat
  padding : Nat
  spare0 : Nat
  spare1 : Nat
  spare2 : Nat
  spare3 : Nat
  spare4 : Nat
  spare5 : Nat
  deriving DecidableEq, Repr

def fuse_kstatfs.as_bytes (k : fuse_kstatfs) : List Nat :=
  u64le k.blocks ++ u64le k.bfree ++ u64le k.bavail ++ u64le k.files ++ u64le k.ffree ++
  u32le k.bsize ++ u32le k.namelen ++ u32le k.frsize ++ u32le k.padding ++
  u32le k.spare0 ++ u32le k.spare1 ++ u32le k.spare2 ++
  u32le k.spare3 ++ u32le k.spare4 ++ u32le k.spare5

/-- `fuse_statfs_out` (fuse_abi.rs lines 690-694). -/
structure fuse_statfs_out where
  st : fuse_kstatfs
  deriving DecidableEq, Repr

def fuse_statfs_out.as_bytes (s : fuse_statfs_out) : List Nat :=
  s.st.as_bytes

/-- `fuse_getxattr_out` (fuse_abi.rs lines 728-733): 8 bytes. -/
structure fuse_getxattr_out where
  size : Nat
  padding : Nat
  deriving DecidableEq, Repr

def fuse_getxattr_out.as_bytes (g : fuse_getxattr_out) : List Nat :=
  u32le g.size ++ u32le g.padding

/-- Byte size of `fuse_getxattr_out`. -/
def fuse_getxattr_out.byteSize : Nat := 8

/-- `fuse_file_lock` (fuse_abi.rs lines 151-159): 24 bytes.
The `end` field is renamed `end_` (`end` is a Lean keyword). -/
structure fuse_file_lock where
  start : Nat
  end_ : Nat
  typ : Int
  pid : Nat
  deriving DecidableEq, Repr

def fuse_file_lock.as_bytes (l : fuse_file_lock) : List Nat :=
  u64le l.start ++ u64le l.end_ ++ i32le l.typ ++ u32le l.pid

/-- `fuse_lk_out` (fuse_abi.rs lines 747-751). -/
structure fuse_lk_out where
  lk : fuse_file_lock
  deriving DecidableEq, Repr

def fuse_lk_out.as_bytes (o : fuse_lk_out) : List Nat :=
  o.lk.as_bytes

/-- `fuse_init_out` (fuse_abi.rs lines 771-805) at feature level 7.31: 64 bytes
(`reserved: [u32; 8]` expanded to eight fields). -/
structure fuse_init_out where
  major : Nat
  minor : Nat
  max_readahead : Nat
  flags : Nat
  max_background : Nat
  congestion_threshold : Nat
  max_write : Nat
  time_gran : Nat
  max_pages : Nat
  unused2 : Nat
  reserved0 : Nat
  reserved1 : Nat
  reserved2 : Nat
  reserved3 : Nat
  reserved4 : Nat
  reserved5 : Nat
  reserved6 : Nat
  reserved7 : Nat
  deriving DecidableEq, Repr

def fuse_init_out.as_bytes (i : fuse_init_out) : List Nat :=
  u32le i.major ++ u32le i.minor ++ u32le i.max_readahead ++ u32le i.flags ++
  u16le i.max_background ++ u16le i.congestion_threshold ++
  u32le i.max_write ++ u32le i.time_gran ++
  u16le i.max_pages ++ u16le i.unused2 ++
  u32le i.reserved0 ++ u32le i.reserved1 ++ u32le i.reserved2 ++ u32le i.reserved3 ++
  u32le i.reserved4 ++ u32le i.reserved5 ++ u32le i.reserved6 ++ u32le i.reserved7

/-- `fuse_ioctl_out` (fuse_abi.rs lines 872-879): 16 bytes. -/
structure fuse_ioctl_out where
  result : Int
  flags : Nat
  in_iovs : Nat
  out_iovs : Nat
  deriving DecidableEq, Repr

def fuse_ioctl_out.as_bytes (o : fuse_ioctl_out) : List Nat :=
  i32le o.result ++ u32le o.flags ++ u32le o.in_iovs ++ u32le o.out_iovs

/-- `fuse_poll_out` (fuse_abi.rs lines 894-900): 8 bytes. -/
structure fuse_poll_out where
  revents : Nat
  padding : Nat
  deriving DecidableEq, Repr

def fuse_poll_out.as_bytes (o : fuse_poll_out) : List Nat :=
  u32le o.revents ++ u32le o.padding

/-- `fuse_bmap_out` (fuse_abi.rs lines 846-850): 8 bytes. -/
structure fuse_bmap_out where
  block : Nat
  deriving DecidableEq, Repr

def fuse_bmap_out.as_bytes (o : fuse_bmap_out) : List Nat :=
  u64le o.block

/-- `fuse_lseek_out` (fuse_abi.rs lines 1066-1070): 8 bytes. -/
structure fuse_lseek_out where
  offset : Nat
  deriving DecidableEq, Repr

def fuse_lseek_out.as_bytes (o : fuse_lseek_out) : List Nat :=
  u64le o.offset

/-- `fuse_dirent` (fuse_abi.rs lines 965-978): 24 bytes, followed on the wire by
`namelen` name bytes. -/
structure fuse_dirent where
  ino : Nat
  off : Int
  namelen : Nat
  typ : Nat
  deriving DecidableEq, Repr

def fuse_dirent.as_bytes (d : fuse_dirent) : List Nat :=
  u64le d.ino ++ i64le d.off ++ u32le d.namelen ++ u32le d.typ

/-- `fuse_direntplus` (fuse_abi.rs lines 987-992): 152 bytes. -/
structure fuse_direntplus where
  entry_out : fuse_entry_out
  dirent : fuse_dirent
  deriving DecidableEq, Repr

def fuse_direntplus.as_bytes (d : fuse_direntplus) : List Nat :=
  d.entry_out.as_bytes ++ d.dirent.as_bytes

/-- `DirectoryEntry` (reply.rs lines 77-82); the name is kept as raw bytes. -/
structure DirectoryEntry where
  entry : fuse_dirent
  name : List Nat
  deriving DecidableEq, Repr

/-- `impl IWrite for DirectoryEntry` (reply.rs lines 84-104): set `namelen`,
write the record then the name, then zero-pad to an 8-byte boundary. -/
def DirectoryEntry.write (e : DirectoryEntry) : List Nat :=
  let entry := { e.entry with namelen := e.name.length }
  let base := entry.as_bytes ++ e.name
  let r := base.length % 8
  if r > 0 then base ++ List.replicate (8 - r) 0 else base

/-- `DirectoryEntryPlus` (reply.rs lines 106-109). -/
structure DirectoryEntryPlus where
  entry : fuse_direntplus
  name : List Nat
  deriving DecidableEq, Repr

/-- `impl IWrite for DirectoryEntryPlus` (reply.rs lines 111-131). -/
def DirectoryEntryPlus.write (e : DirectoryEntryPlus) : List Nat :=
  let entry := { e.entry with dirent := { e.entry.dirent with namelen := e.name.length } }
  let base := entry.as_bytes ++ e.name
  let r := base.length % 8
  if r > 0 then base ++ List.replicate (8 - r) 0 else base

namespace reply

/-- `messages::reply::Operation` (reply.rs lines 836-913) at feature level 7.31
on Linux. Variants whose source struct has no fields carry no payload and
serialize to zero bytes; `ReadLink` and `Read` data are raw bytes. Note the
reply enum has no `SetLkW` variant (the source skips discriminant 33). -/
inductive Operation
  | Lookup (arg : fuse_entry_out)
  | Forget
  | GetAttr (arg : fuse_attr_out)
  | SetAttr (arg : fuse_attr_out)
  | ReadLink (data : List Nat)
  | SymLink (arg : fuse_entry_out)
  | MkNod
  | MkDir (arg : fuse_entry_out)
  | Unlink
  | RmDir
  | Rename
  | Link (arg : fuse_entry_out)
  | Open (arg : fuse_open_out)
  | Read (data : List Nat)
  | Write (arg : fuse_write_out)
  | StatFs (arg : fuse_statfs_out)
  | Release
  | FSync
  | SetXAttr
  | GetXAttr (arg : fuse_getxattr_out) (data : List Nat)
  | ListXAttr (data : List Nat)
  | RemoveXAttr
  | Flush
  | Init (arg : fuse_init_out)
  | OpenDir (arg : fuse_open_out)
  | ReadDir (entries : List DirectoryEntry)
  | ReleaseDir
  | FSyncDir
  | GetLk (arg : fuse_lk_out)
  | SetLk (arg : fuse_lk_out)
  | Access
  | Create (arg : fuse_create_out)
  | Interrupt
  | BMap (arg : fuse_bmap_out)
  | Destroy
  | IoCtl (arg : fuse_ioctl_out)
  | Poll (arg : fuse_poll_out)
  | NotifyReply
  | BatchForget
  | FAllocate
  | ReadDirPlus (entries : List DirectoryEntryPlus)
  | Rename2
  | Lseek (arg : fuse_lseek_out)
  | CopyFileRange (arg : fuse_write_out)
  | SetupMapping
  | RemoveMapping
  | CuseInit
  deriving DecidableEq, Repr

/-- `impl IWrite for Operation` (reply.rs lines 915-977), dispatching to each
variant's `write` (reply.rs lines 133-834): fixed records copy their
`as_bytes`; `ReadLink`/`Read`/`ListXAttr` copy raw data; `GetXAttr` copies the
`fuse_getxattr_out` record then the data (reply.rs lines 385-396); directory
replies pack entries sequentially. The returned list is the bytes written; the
source's returned count is its length. -/
def Operation.write : Operation → List Nat
  | .Lookup arg => arg.as_bytes
  | .Forget => []
  | .GetAttr arg => arg.as_bytes
  | .SetAttr arg => arg.as_bytes
  | .ReadLink data => data
  | .SymLink arg => arg.as_bytes
  | .MkNod => []
  | .MkDir arg => arg.as_bytes
  | .Unlink => []
  | .RmDir => []
  | .Rename => []
  | .Link arg => arg.as_bytes
  | .Open arg => arg.as_bytes
  | .Read data => data
  | .Write arg => arg.as_bytes
  | .StatFs arg => arg.as_bytes
  | .Release => []
  | .FSync => []
  | .SetXAttr => []
  | .GetXAttr arg data => arg.as_bytes ++ data
  | .ListXAttr data => data
  | .RemoveXAttr => []
  | .Flush => []
  | .Init arg => arg.as_bytes
  | .OpenDir arg => arg.as_bytes
  | .ReadDir entries => entries.foldl (fun acc e => acc ++ e.write) []
  | .ReleaseDir => []
  | .FSyncDir => []
  | .GetLk arg => arg.as_bytes
  | .SetLk arg => arg.as_bytes
  | .Access => []
  | .Create arg => arg.as_bytes
  | .Interrupt => []
  | .BMap arg => arg.as_bytes
  | .Destroy => []
  | .IoCtl arg => arg.as_bytes
  | .Poll arg => arg.as_bytes
  | .NotifyReply => []
  | .BatchForget => []
  | .FAllocate => []
  | .ReadDirPlus entries => entries.foldl (fun acc e => acc ++ e.write) []
  | .Rename2 => []
  | .Lseek arg => arg.as_bytes
  | .CopyFileRange arg => arg.as_bytes
  | .SetupMapping => []
  | .RemoveMapping => []
  | .CuseInit => []

end reply

/-- `fuse_out_header` (fuse_abi.rs lines 936-947): len, error (i32, negative
errno or zero), unique — 16 bytes. -/
structure fuse_out_header where
  len : Nat
  error : Int
  unique : Nat
  deriving DecidableEq, Repr

def fuse_out_header.as_bytes (h : fuse_out_header) : List Nat :=
  u32le h.len ++ i32le h.error ++ u64le h.unique

/-- `Reply` (reply.rs lines 22-27). -/
structure Reply where
  header : fuse_out_header
  operation : Option reply.Operation
  deriving DecidableEq, Repr

/-- Serialized length of a reply's operation payload (0 when `operation` is
`None`). -/
def Reply.payloadLen (r : Reply) : Nat :=
  match r.operation with
  | none => 0
  | some op => op.write.length

/-- `impl IWrite for Reply` (reply.rs lines 54-73): write the 16 header bytes,
then the operation payload if present, then overwrite the header's `len` field
in place with the final count and return the count. The returned list is the
final contents of `buffer[..count]` (the header bytes with `len` already fixed
up, followed by the payload); the in-place two-pass fix-up of the source
collapses to emitting `u32le count` directly. Note the source never examines
`header.error`: the payload is written whenever `operation` is `Some`. -/
def Reply.write (r : Reply) : List Nat × Nat :=
  let body : List Nat :=
    match r.operation with
    | none => []
    | some op => op.write
  let count := 16 + body.length
  (u32le count ++ i32le r.header.error ++ u64le r.header.unique ++ body, count)

/-! ## Session loop (session.rs) -/

/-- The `raw_os_error` view of a `tokio::io::Error` (session.rs line 93). -/
structure OSError where
  raw_os_error : Option Int
  deriving DecidableEq, Repr

/-- Linux errno constants used by `Inner::on_read` (libc). -/
def ENOENT : Int := 2
def EINTR : Int := 4
def EAGAIN : Int := 11
def ENODEV : Int := 19

/-- Observable state of `Inner` used by `on_read` (session.rs lines 45-59):
the cancellation token, the frame buffer, the outbound request channel's
closed flag (a send on a closed channel fails), and the reply sender attached
to parsed requests. -/
structure InnerState where
  cancelled : Bool
  buffer : List Nat
  fs_tx_closed : Bool
  reply_tx : ReplyTx
  deriving DecidableEq, Repr

/-- Result of one `Inner::on_read` call: `ok` carries the (possibly updated)
cancellation flag and the request forwarded to the filesystem, if any;
`fatal e` is `return Err(e)` (which the `?` in `Inner::run` turns into loop
termination); `panic` is the `todo!()` arm or a parser panic. -/
inductive ReadOutcome
  | ok (cancelled : Bool) (forwarded : Option Request)
  | fatal (e : Errno)
  | panic
  deriving DecidableEq, Repr

/-- `Inner::on_read` (session.rs lines 90-129). Read errors: `ENOENT`/`EINTR`/
`EAGAIN` are swallowed; `ENODEV` cancels the token and continues; every other
error (including one without a raw OS error) hits `todo!()` and panics — the
commented-out `// _ => return Err(e.into())` records the intended fatal
return. Read success: `Request::parse(&mut self.buffer, ..)?` propagates a
parse error as the fatal result of `on_read`; a parsed request is sent on the
outbound channel (send fails with `EIO` when the receiver is closed). -/
def Inner.on_read (st : InnerState) (read_result : Except OSError Nat) : ReadOutcome :=
  match read_result with
  | .error e =>
    match e.raw_os_error with
    | some n =>
      if n = ENOENT then .ok st.cancelled none
      else if n = EINTR then .ok st.cancelled none
      else if n = EAGAIN then .ok st.cancelled none
      else if n = ENODEV then .ok true none
      else .panic
    | none => .panic
  | .ok _bytes =>
    match Request.parse st.buffer st.reply_tx with
    | .error .eio => .fatal .eio
    | .error .panic => .panic
    | .ok request =>
      if st.fs_tx_closed then .fatal .eio
      else .ok st.cancelled (some request)

/-- `Inner::on_fs_reply` (session.rs lines 138-158), with the blocking device
write abstracted as `devWrite` (the `std::io::Write::write` of the writer half;
its error is already converted to `Errno` as by `e.into()`). The source
serializes the reply into the buffer, writes `&self.buffer[..count]`, and
discards the accepted-byte count `r` of a successful write. -/
def Inner.on_fs_reply (reply? : Option Reply)
    (devWrite : List Nat → Except Errno Nat) : Except Errno Unit :=
  match reply? with
  | none => .error .eio
  | some reply =>
    match devWrite ((Reply.write reply).1.take (Reply.write reply).2) with
    | .error e => .error e
    | .ok _r => .ok ()

/-- `Inner::is_busy` (session.rs lines 131-133): the inbound reply channel is
still open or still holds replies. -/
def Inner.is_busy (rx_closed rx_empty : Bool) : Bool :=
  !rx_closed || !rx_empty

/-- The `while` guard of `Inner::run` (session.rs line 69): iterate while not
cancelled or still busy. -/
def Inner.loop_continues (cancelled rx_closed rx_empty : Bool) : Bool :=
  !cancelled || Inner.is_busy rx_closed rx_empty

/-- The guard of the device-read `select!` arm (session.rs line 76): a read is
initiated only while the token is not cancelled. -/
def Inner.read_arm_enabled (cancelled : Bool) : Bool :=
  !cancelled

/-- The reply `select!` arm (session.rs lines 73-75) carries no guard: pending
replies keep being received in every state. -/
def Inner.reply_arm_enabled : Bool :=
  true

/-! ## Sanity check against the crate's own unit test

`request.rs` tests `INIT_REQUEST` (little-endian, lines 797-806): the embedded
parser reproduces every assertion of the `init` test (lines 842-862). -/

/-- The 56-byte little-endian `INIT_REQUEST` frame from the crate's tests. -/
def INIT_REQUEST : List Nat :=
  [0x38, 0, 0, 0, 0x1a, 0, 0, 0,
   0x0d, 0xf0, 0xad, 0xba, 0xef, 0xbe, 0xad, 0xde,
   0x88, 0x77, 0x66, 0x55, 0x44, 0x33, 0x22, 0x11,
   0x0d, 0xd0, 0x01, 0xc0, 0xfe, 0xca, 0x01, 0xc0,
   0x5e, 0xba, 0xde, 0xc0, 0, 0, 0, 0,
   0x07, 0, 0, 0, 0x08, 0, 0, 0,
   0, 0x10, 0, 0, 0, 0, 0, 0]

/-- The embedded parser agrees with the crate's `init` unit test on the
`INIT_REQUEST` vector: len 56, opcode 26, unique `0xdead_beef_baad_f00d`,
nodeid `0x1122_3344_5566_7788`, uid `0xc001_d00d`, gid `0xc001_cafe`,
pid `0xc0de_ba5e`, and an `Init` whose record holds major 7, minor 8,
max_readahead 4096. -/
theorem parse_agrees_with_init_unit_test :
    Request.parse INIT_REQUEST ⟨⟩ =
      .ok { header :=
              { len := 56, opcode := 26, unique := 0xdeadbeefbaadf00d,
                nodeid := 0x1122334455667788, uid := 0xc001d00d, gid := 0xc001cafe,
                pid := 0xc0deba5e, padding := 0 },
            operation := .Init [7, 0, 0, 0, 8, 0, 0, 0, 0, 16, 0, 0, 0, 0, 0, 0],
            reply_to := ⟨⟩ } :=
  rfl

/-! ## Claim C1 -/

/-- C1 (code_bug evaluation): `Request::parse` does not return `EIO` on every
malformed buffer — a 40-byte GETATTR frame (header only, so the
`fuse_getattr_in` prefix cast fails) makes the source `unwrap` panic
(request.rs line 61, under the `// TODO error handling - these will panic`
comment), where the claim and the spec demand an `EIO` parse error. The EIO
cases the source does handle are also evaluated: a buffer too short for the
header, and an unknown opcode (7) with a parsed header. -/
theorem C1_parse_panics_on_truncated_getattr_body :
    Request.parse (u32le 40 ++ u32le 3 ++ List.replicate 32 0) ⟨⟩ = .error .panic ∧
    Request.parse (List.replicate 10 0) ⟨⟩ = .error .eio ∧
    Request.parse (u32le 56 ++ u32le 7 ++ List.replicate 48 0) ⟨⟩ = .error .eio :=
  ⟨rfl, rfl, rfl⟩

/-! ## Claim C2 -/

/-- C2 (counterexample): a `Reply` with `header.error = -5` that carries an
`Open` payload serializes to 32 bytes, not the claimed header-only 16:
`Reply::write` (reply.rs lines 54-73) never examines the error field. -/
theorem C2_counterexample :
    ({ header := { len := 0, error := -5, unique := 0 },
       operation := some (.Open { fh := 0, open_flags := 0, padding := 0 }) } : Reply).header.error
        ≠ 0 ∧
    (Reply.write
      { header := { len := 0, error := -5, unique := 0 },
        operation := some (.Open { fh := 0, open_flags := 0, padding := 0 }) }).2 = 32 := by
  decide

/-- C2 (amended): for every `Reply` with a non-zero error field, `Reply::write`
writes 16 header bytes plus the full serialized operation payload — the error
field is ignored — so the output is header-only (16 bytes) exactly when the
payload serializes to zero bytes (in particular when `operation` is `None`, as
in every error reply the library itself builds via `Request::send_error`). -/
theorem C2_amended_header_plus_payload (r : Reply) (_h : r.header.error ≠ 0) :
    (Reply.write r).2 = 16 + r.payloadLen ∧
      ((Reply.write r).2 = 16 ↔ r.payloadLen = 0) := by
  obtain ⟨hd, op⟩ := r
  cases op with
  | none => exact ⟨rfl, by simp [Reply.write, Reply.payloadLen]⟩
  | some o =>
    refine ⟨rfl, ?_⟩
    simp only [Reply.write, Reply.payloadLen]
    omega

/-- C2 (witness): the amended theorem instantiated at a bare error reply
(`error = -5`, no operation): 16 bytes, header-only. -/
theorem C2_witness :
    ({ header := { len := 0, error := -5, unique := 7 }, operation := none } : Reply).header.error
        ≠ 0 ∧
    (Reply.write { header := { len := 0, error := -5, unique := 7 }, operation := none }).2 =
      16 + Reply.payloadLen { header := { len := 0, error := -5, unique := 7 }, operation := none } :=
  ⟨by decide,
   (C2_amended_header_plus_payload
     { header := { len := 0, error := -5, unique := 7 }, operation := none } (by decide)).1⟩

/-! ## Claim C3 -/

/-- The session state used for the C3 counterexample: not cancelled, outbound
channel open, buffer holding a 56-byte frame whose header parses (len 56) but
whose opcode (7) is unknown, so `Request::parse` fails with `EIO`. -/
def stC3 : InnerState :=
  { cancelled := false
    buffer := u32le 56 ++ u32le 7 ++ List.replicate 48 0
    fs_tx_closed := false
    reply_tx := ⟨⟩ }

/-- C3 (counterexample): on a read frame whose header parses but whose body
fails to parse, `Inner::on_read` returns `Err(Errno::EIO)` — via the `?` on
`Request::parse` (session.rs line 120) — which `Inner::run` propagates, so the
loop terminates; no `-EIO` reply is written and the loop does not continue,
contrary to the claim. -/
theorem C3_counterexample :
    Inner.on_read stC3 (.ok 56) = .fatal .eio := by
  decide

/-- C3 (amended): whenever `Request::parse` on the frame buffer fails with
`EIO` (which covers every frame whose header parses but whose body yields a
parse error rather than a panic), `Inner::on_read` returns that `EIO` as the
fatal result of the loop iteration: the parse failure ends the session, and no
reply carrying the captured `unique` is produced. -/
theorem C3_amended_parse_failure_is_fatal (st : InnerState) (n : Nat)
    (h : Request.parse st.buffer st.reply_tx = .error .eio) :
    Inner.on_read st (.ok n) = .fatal .eio := by
  unfold Inner.on_read
  rw [h]

/-- C3 (witness): the amended theorem instantiated at the unknown-opcode frame
of `stC3`. -/
theorem C3_witness :
    Request.parse stC3.buffer stC3.reply_tx = .error .eio ∧
      Inner.on_read stC3 (.ok 56) = .fatal .eio :=
  ⟨rfl, C3_amended_parse_failure_is_fatal stC3 56 rfl⟩

/-! ## Claim C4 -/

/-- C4 (code_bug evaluation): `Inner::on_read` (session.rs lines 90-129) does
classify `ENOENT`/`EINTR`/`EAGAIN` as swallowed and `ENODEV` as
cancel-and-continue, but every other read error — e.g. `EACCES` (13), or an
error with no raw OS code — hits `todo!()` and panics instead of being
returned as a fatal error; the adjacent commented-out
`// _ => return Err(e.into())` records the intended behaviour the claim
describes. -/
theorem C4_on_read_error_classification :
    Inner.on_read { cancelled := false, buffer := [], fs_tx_closed := false, reply_tx := ⟨⟩ }
        (.error ⟨some ENOENT⟩) = .ok false none ∧
    Inner.on_read { cancelled := false, buffer := [], fs_tx_closed := false, reply_tx := ⟨⟩ }
        (.error ⟨some EINTR⟩) = .ok false none ∧
    Inner.on_read { cancelled := false, buffer := [], fs_tx_closed := false, reply_tx := ⟨⟩ }
        (.error ⟨some EAGAIN⟩) = .ok false none ∧
    Inner.on_read { cancelled := false, buffer := [], fs_tx_closed := false, reply_tx := ⟨⟩ }
        (.error ⟨some ENODEV⟩) = .ok true none ∧
    Inner.on_read { cancelled := false, buffer := [], fs_tx_closed := false, reply_tx := ⟨⟩ }
        (.error ⟨some 13⟩) = .panic ∧
    Inner.on_read { cancelled := false, buffer := [], fs_tx_closed := false, reply_tx := ⟨⟩ }
        (.error ⟨none⟩) = .panic := by
  decide

/-! ## Claim C5 -/

/-- C5 (counterexample): flushing a 16-byte reply through a device that
accepts only 10 bytes still returns `Ok(())` from `Inner::on_fs_reply`
(session.rs lines 150-155 discard the accepted-byte count `r`), so a short
write is treated as successful completion, and the serialized `len` field (16)
differs from the bytes actually written (10) — contrary to the claim. -/
theorem C5_counterexample :
    Inner.on_fs_reply (some { header := { len := 0, error := 0, unique := 0 }, operation := none })
        (fun _ => .ok 10) = .ok () ∧
    (Reply.write { header := { len := 0, error := 0, unique := 0 }, operation := none }).2 = 16 ∧
    (10 : Nat) ≠ 16 :=
  ⟨rfl, rfl, by decide⟩

/-- C5 (amended): the `len` field stored in the serialized reply header equals
the serialized byte count handed to the device write (`count`), and whenever
the device write returns `Ok` — with any accepted-byte count, including a
short one — `on_fs_reply` reports success: the accepted count is discarded, so
a short device write is not detected, let alone treated as fatal. -/
theorem C5_amended_len_is_count_and_short_write_ignored (r : Reply)
    (devWrite : List Nat → Except Errno Nat) (k : Nat) :
    ((Reply.write r).1.take 4 = u32le (Reply.write r).2) ∧
      (devWrite ((Reply.write r).1.take (Reply.write r).2) = .ok k →
        Inner.on_fs_reply (some r) devWrite = .ok ()) := by
  refine ⟨rfl, fun h => ?_⟩
  show (match devWrite ((Reply.write r).1.take (Reply.write r).2) with
        | Except.error e => (Except.error e : Except Errno Unit)
        | Except.ok _r => Except.ok ()) = Except.ok ()
  rw [h]

/-- The concrete reply used by the C5 witness. -/
def rC5w : Reply :=
  { header := { len := 0, error := 0, unique := 9 }, operation := none }

/-- The concrete short-writing device used by the C5 witness: accepts 3 of the
16 serialized bytes. -/
def devWriteC5w : List Nat → Except Errno Nat :=
  fun _ => .ok 3

/-- C5 (witness): the amended theorem instantiated at a bare reply and a device
accepting only 3 of the 16 bytes. -/
theorem C5_witness :
    devWriteC5w ((Reply.write rC5w).1.take (Reply.write rC5w).2) = .ok 3 ∧
    (Reply.write rC5w).1.take 4 = u32le (Reply.write rC5w).2 ∧
    Inner.on_fs_reply (some rC5w) devWriteC5w = .ok () :=
  ⟨rfl,
   (C5_amended_len_is_count_and_short_write_ignored rC5w devWriteC5w 3).1,
   (C5_amended_len_is_count_and_short_write_ignored rC5w devWriteC5w 3).2 rfl⟩

/-! ## Claim C6 -/

/-- C6: the `while` guard of `Inner::run` (session.rs line 69) evaluates to
false — ending the session — exactly when cancellation has been requested and
the inbound reply channel is both closed and empty (`is_busy`, session.rs
lines 131-133); the device-read `select!` arm is gated on the token not being
cancelled (session.rs line 76), so no new read is initiated after
cancellation; and the reply arm carries no guard, so pending replies keep
being drained. -/
theorem C6_termination_and_drain_guards :
    ∀ cancelled rx_closed rx_empty : Bool,
      (Inner.loop_continues cancelled rx_closed rx_empty = false ↔
        (cancelled = true ∧ rx_closed = true ∧ rx_empty = true)) ∧
      (Inner.read_arm_enabled cancelled = true ↔ cancelled = false) ∧
      Inner.reply_arm_enabled = true := by
  decide

/-- C6 (witness): the guard theorem instantiated at the terminal state —
cancelled with a closed, empty reply channel — where the loop stops. -/
theorem C6_witness :
    Inner.loop_continues true true true = false :=
  ((C6_termination_and_drain_guards true true true).1).mpr ⟨rfl, rfl, rfl⟩

/-! ## Claim C7 -/

/-- C7 (counterexample): a 56-byte INIT frame whose header claims
`len = 16777215` — far more than the 56 available bytes — is accepted by
`Request::parse`, which performs no validation of the header's `len` field
against the slice length, contrary to the claim. -/
theorem C7_counterexample :
    Request.parse (u32le 16777215 ++ u32le 26 ++ List.replicate 32 0 ++ List.replicate 16 0) ⟨⟩ =
      .ok { header := { len := 16777215, opcode := 26, unique := 0, nodeid := 0,
                        uid := 0, gid := 0, pid := 0, padding := 0 },
            operation := .Init (List.replicate 16 0),
            reply_to := ⟨⟩ } ∧
    (u32le 16777215 ++ u32le 26 ++ List.replicate 32 0 ++ List.replicate 16 0).length = 56 ∧
    56 < 16777215 :=
  ⟨rfl, rfl, by decide⟩

/-- C7 (amended): after casting the header prefix, `Request::parse` performs no
validation of the `len` field at all: for every choice of the four `len`
bytes of a 56-byte INIT frame — including values far exceeding the slice
length — parsing succeeds, and the oversized value is stored verbatim in the
returned header. -/
theorem C7_amended_len_never_validated (a b c d : Nat) :
    Request.parse (a :: b :: c :: d :: (u32le 26 ++ List.replicate 32 0 ++ List.replicate 16 0)) ⟨⟩ =
      .ok { header := { len := a + 256 * (b + 256 * (c + 256 * d)), opcode := 26, unique := 0,
                        nodeid := 0, uid := 0, gid := 0, pid := 0, padding := 0 },
            operation := .Init (List.replicate 16 0),
            reply_to := ⟨⟩ } :=
  rfl

/-! ## Claim C8 -/

/-- C8 (code_bug evaluation): the FORGET arm casts `fuse_forget_in` from the
START of the frame (`buffer`, request.rs line 57) instead of from the bytes
after the 40-byte header (`rest`) as every sibling arm does: for a 48-byte
FORGET frame carrying `nlookup = 5` at offset 40, the parsed record is the
frame's first 8 bytes (the header's own `len` and `opcode` fields), so its
`nlookup` reads as `48 + 2·2^32 = 8589934640`, not the 5 the kernel sent. -/
theorem C8_forget_arg_read_from_frame_start :
    Request.parse (u32le 48 ++ u32le 2 ++ List.replicate 32 0 ++ u64le 5) ⟨⟩ =
      .ok { header := { len := 48, opcode := 2, unique := 0, nodeid := 0,
                        uid := 0, gid := 0, pid := 0, padding := 0 },
            operation := .Forget [48, 0, 0, 0, 2, 0, 0, 0],
            reply_to := ⟨⟩ } ∧
    fuse_forget_in.nlookup [48, 0, 0, 0, 2, 0, 0, 0] = 8589934640 ∧
    readLE (u32le 48 ++ u32le 2 ++ List.replicate 32 0 ++ u64le 5) 40 8 = 5 ∧
    (8589934640 : Nat) ≠ 5 :=
  ⟨rfl, rfl, rfl, by decide⟩

/-! ## Claim C9 -/

/-- C9 (counterexample): a LISTXATTR reply carrying a 3-byte payload serializes
to exactly those 3 raw bytes (reply.rs lines 402-408) — no 8-byte
`fuse_getxattr_out` prefix is written, contrary to the claim (as the spec's
own §9 design note concedes). -/
theorem C9_counterexample :
    (reply.Operation.ListXAttr [1, 2, 3]).write.length = 3 ∧
    (3 : Nat) ≠ fuse_getxattr_out.byteSize + 3 := by
  decide

/-- C9 (amended): a GETXATTR reply with a data payload writes the fixed
`fuse_getxattr_out` prefix and then the raw payload bytes, so its body length
is `size_of(fuse_getxattr_out) + payload length` (reply.rs lines 385-396); a
LISTXATTR reply writes only the raw payload bytes, with no prefix (reply.rs
lines 402-408). -/
theorem C9_amended_getxattr_prefixed_listxattr_raw (arg : fuse_getxattr_out) (data : List Nat) :
    (reply.Operation.GetXAttr arg data).write = arg.as_bytes ++ data ∧
    (reply.Operation.GetXAttr arg data).write.length = fuse_getxattr_out.byteSize + data.length ∧
    (reply.Operation.ListXAttr data).write = data := by
  refine ⟨rfl, ?_, rfl⟩
  simp [reply.Operation.write, fuse_getxattr_out.as_bytes, fuse_getxattr_out.byteSize, u32le]
  omega

/-! ## Claim C10 -/

/-- C10: `Request::from_op` builds a header whose `opcode` is
`Operation::get_opcode(op)` and whose other fields (len, unique, nodeid, uid,
gid, pid, padding) are all zero (request.rs lines 22-37), and `get_opcode`
returns each variant's declared `repr(u32)` discriminant (request.rs lines
690-776): 1 for Lookup, 2 for Forget, …, 26 for Init, 4096 for CuseInit. -/
theorem C10_from_op_and_opcode_discriminants :
    (∀ (op : request.Operation) (rt : ReplyTx),
      Request.from_op op rt =
        { header := { len := 0, opcode := op.get_opcode, unique := 0, nodeid := 0,
                      uid := 0, gid := 0, pid := 0, padding := 0 },
          operation := op, reply_to := rt }) ∧
    (∀ x, request.Operation.get_opcode (.Lookup x) = 1) ∧
    (∀ x, request.Operation.get_opcode (.Forget x) = 2) ∧
    (∀ x, request.Operation.get_opcode (.GetAttr x) = 3) ∧
    (∀ x, request.Operation.get_opcode (.SetAttr x) = 4) ∧
    request.Operation.get_opcode .ReadLink = 5 ∧
    (∀ x y, request.Operation.get_opcode (.SymLink x y) = 6) ∧
    (∀ x y, request.Operation.get_opcode (.MkNod x y) = 8) ∧
    (∀ x y, request.Operation.get_opcode (.MkDir x y) = 9) ∧
    (∀ x, request.Operation.get_opcode (.Unlink x) = 10) ∧
    (∀ x, request.Operation.get_opcode (.RmDir x) = 11) ∧
    (∀ x y z, request.Operation.get_opcode (.Rename x y z) = 12) ∧
    (∀ x y, request.Operation.get_opcode (.Link x y) = 13) ∧
    (∀ x, request.Operation.get_opcode (.Open x) = 14) ∧
    (∀ x, request.Operation.get_opcode (.Read x) = 15) ∧
    (∀ x y, request.Operation.get_opcode (.Write x y) = 16) ∧
    request.Operation.get_opcode .StatFs = 17 ∧
    (∀ x, request.Operation.get_opcode (.Release x) = 18) ∧
    (∀ x, request.Operation.get_opcode (.FSync x) = 20) ∧
    (∀ x y z, request.Operation.get_opcode (.SetXAttr x y z) = 21) ∧
    (∀ x y, request.Operation.get_opcode (.GetXAttr x y) = 22) ∧
    (∀ x, request.Operation.get_opcode (.ListXAttr x) = 23) ∧
    (∀ x, request.Operation.get_opcode (.RemoveXAttr x) = 24) ∧
    (∀ x, request.Operation.get_opcode (.Flush x) = 25) ∧
    (∀ x, request.Operation.get_opcode (.Init x) = 26) ∧
    (∀ x, request.Operation.get_opcode (.OpenDir x) = 27) ∧
    (∀ x, request.Operation.get_opcode (.ReadDir x) = 28) ∧
    (∀ x, request.Operation.get_opcode (.ReleaseDir x) = 29) ∧
    (∀ x, request.Operation.get_opcode (.FSyncDir x) = 30) ∧
    (∀ x, request.Operation.get_opcode (.GetLk x) = 31) ∧
    (∀ x, request.Operation.get_opcode (.SetLk x) = 32) ∧
    (∀ x, request.Operation.get_opcode (.SetLkW x) = 33) ∧
    (∀ x, request.Operation.get_opcode (.Access x) = 34) ∧
    (∀ x y, request.Operation.get_opcode (.Create x y) = 35) ∧
    (∀ x, request.Operation.get_opcode (.Interrupt x) = 36) ∧
    (∀ x, request.Operation.get_opcode (.BMap x) = 37) ∧
    request.Operation.get_opcode .Destroy = 38 ∧
    (∀ x y, request.Operation.get_opcode (.IoCtl x y) = 39) ∧
    (∀ x, request.Operation.get_opcode (.Poll x) = 40) ∧
    request.Operation.get_opcode .NotifyReply = 41 ∧
    (∀ x y, request.Operation.get_opcode (.BatchForget x y) = 42) ∧
    (∀ x, request.Operation.get_opcode (.FAllocate x) = 43) ∧
    (∀ x, request.Operation.get_opcode (.ReadDirPlus x) = 44) ∧
    (∀ x y z w, request.Operation.get_opcode (.Rename2 x y z w) = 45) ∧
    (∀ x, request.Operation.get_opcode (.LSeek x) = 46) ∧
    (∀ x, request.Operation.get_opcode (.CopyFileRange x) = 47) ∧
    request.Operation.get_opcode .SetupMapping = 48 ∧
    request.Operation.get_opcode .RemoveMapping = 49 ∧
    (∀ x, request.Operation.get_opcode (.CuseInit x) = 4096) := by
  refine ⟨fun op rt => rfl, ?_⟩
  repeat' constructor
  all_goals intros
  all_goals rfl

end RsFusion
